import Mathlib

/-!
# Verification of the call-tracking CRM core

A shallow embedding of the core of the `call-tracking` repository:

* routing resolution (`DatabaseService.get_destination_number`,
  `src/services/database.py`),
* the Twilio webhook response paths (`src/webhook.py`),
* the call ledger insert (`DatabaseService.insert_call`),
* the CRM reconciler (`CRMService`, `src/services/crm.py`),
* the post-call analysis persistence (`AIService`, `src/services/ai_service.py`).

Tables are modelled as lists of typed rows; Supabase query chains become
`List.filter` / head-of-ordered-result computations; `datetime.utcnow()` is an
explicit `now : Nat` argument threaded through the operations; Python
exceptions that the source catches locally become `Option`/explicit error
values.
-/

namespace CallTracking

/-- A row of the `phone_routing` table (spec §3 "Route").
`campaign = none` is the generic route (SQL `NULL`). -/
structure Route where
  id : Nat
  tracking_number : String
  destination_number : String
  campaign : Option String
  is_active : Bool
deriving Repr, DecidableEq

/-- Codepoint-lexicographic comparison of character lists: the text ordering
PostgreSQL applies to the `campaign` column (under byte/codepoint collation,
which agrees with any sane collation on the ASCII campaign names used
here). -/
def charListLt : List Char → List Char → Bool
  | [], [] => false
  | [], _ :: _ => true
  | _ :: _, [] => false
  | c :: cs, d :: ds =>
    if c.toNat < d.toNat then true
    else if d.toNat < c.toNat then false
    else charListLt cs ds

/-- Strict lexicographic order on strings, by codepoint. -/
def strLt (a b : String) : Bool := charListLt a.data b.data

/-- The PostgREST ordering key used by `get_destination_number`:
`order('campaign', desc=False)` sorts campaign names ascending with SQL
`NULL` last (the PostgreSQL default for ascending order). -/
def campaignLt : Option String → Option String → Bool
  | some a, some b => strLt a b
  | some _, none => true
  | none, _ => false

/-- First row of the result set after ordering by `campaign` ascending
(nulls last): the first element of the list whose key is minimal, which is
what `order('campaign', desc=False).limit(1)` yields on distinct keys. -/
def orderHead : List Route → Option Route
  | [] => none
  | r :: rs =>
    match orderHead rs with
    | none => some r
    | some b => if campaignLt b.campaign r.campaign then some b else some r

/-- `DatabaseService.get_destination_number` (src/services/database.py lines
57-98).  Filters `phone_routing` by tracking number and `is_active`; when a
(non-empty) campaign is supplied it additionally keeps only rows with that
exact campaign or a `NULL` campaign (`or_('campaign.eq.…,campaign.is.null')`);
then orders by campaign ascending (nulls last) and takes the first row.
The Python `if campaign:` test is false for an empty string, hence the
`c = ""` case.  Any backend exception is caught and turned into `None` in the
source; the Lean function is total and returns `none` exactly when the result
set is empty. -/
def get_destination_number (routes : List Route) (tracking_number : String)
    (campaign : Option String) : Option String :=
  let base := routes.filter fun r =>
    r.tracking_number == tracking_number && r.is_active
  let filtered :=
    match campaign with
    | some c =>
      if c = "" then base
      else base.filter fun r => r.campaign == some c || r.campaign == none
    | none => base
  (orderHead filtered).map fun r => r.destination_number

/-- The voice-control (TwiML) documents the webhook can produce
(src/webhook.py `_create_forward_response`, `_create_no_destination_response`,
`_create_error_response`). -/
inductive VoiceDoc where
  | forward (destination : String)
  | decline
  | errorDoc
deriving Repr, DecidableEq

/-- What the Python view function returns to Flask.  The helpers
`_create_no_destination_response` and `_create_error_response`
(src/webhook.py lines 318-342) already return a `(Response, 200)` *tuple*;
the call sites at lines 107, 150 and 187 wrap that tuple in a second tuple
(`return _create_…(), status`), producing `((Response, 200), status)` —
`nested doc inner outer`.  Only line 183 returns a well-formed
`(Response, 200)` pair — `ok doc status`. -/
inductive ViewReturn where
  | ok (doc : VoiceDoc) (status : Nat)
  | nested (doc : VoiceDoc) (inner outer : Nat)
deriving Repr, DecidableEq

/-- What Flask serves over HTTP: either the voice document the view supplied
or Flask's own HTML Internal Server Error page. -/
inductive HttpBody where
  | voice (doc : VoiceDoc)
  | errorPage
deriving Repr, DecidableEq

/-- Flask `make_response` on the view's return value: a well-formed
`(body, status)` pair is served as is; a 2-tuple whose first element is
itself a tuple has its outer status unpacked but the tuple body is rejected
with `TypeError` ("the view function did not return a valid response"),
which Flask answers as HTTP 500 with its HTML error page. -/
def flask_answer : ViewReturn → Nat × HttpBody
  | ViewReturn.ok doc status => (status, HttpBody.voice doc)
  | ViewReturn.nested _ _ _ => (500, HttpBody.errorPage)

/-- The raw return value of `webhook_call` (src/webhook.py lines 85-187).
`authOk` is the outcome of `validate_twilio_request()`; `internalExc` is
true when an exception escapes the handler body to the catch-all at lines
185-187 (each individual step of the body catches its own errors, so the
deterministic paths are the other three).  Line 107 returns
`_create_error_response(…), 403` (nested, decline-style error document,
inner 200); line 150 returns `_create_no_destination_response(), 200`
(nested, decline document, inner 200); line 183 returns the well-formed
forward response with 200; line 187 returns `_create_error_response(…), 500`
(nested). -/
def webhook_call_view (authOk : Bool) (routes : List Route)
    (to_number : String) (campaign : Option String) (internalExc : Bool) :
    ViewReturn :=
  if authOk = false then ViewReturn.nested VoiceDoc.errorDoc 200 403
  else if internalExc then ViewReturn.nested VoiceDoc.errorDoc 200 500
  else
    match get_destination_number routes to_number campaign with
    | none => ViewReturn.nested VoiceDoc.decline 200 200
    | some d => ViewReturn.ok (VoiceDoc.forward d) 200

/-- The HTTP status and body `webhook_call` actually delivers: the view's
return value passed through Flask's `make_response`. -/
def webhook_call_response (authOk : Bool) (routes : List Route)
    (to_number : String) (campaign : Option String) (internalExc : Bool) :
    Nat × HttpBody :=
  flask_answer (webhook_call_view authOk routes to_number campaign
    internalExc)

/-- The request values read by `webhook_recording` (src/webhook.py lines
194-231); each is `none` when the form field is absent. -/
structure RecordingRequest where
  callSid : Option String
  recordingUrl : Option String
  recordingSid : Option String
  recordingDuration : Option String
deriving Repr, DecidableEq

/-- Decimal digit accumulator for `pyInt?`. -/
def parseDigitsAux : List Char → Nat → Option Nat
  | [], acc => some acc
  | c :: cs, acc =>
    if 48 ≤ c.toNat && c.toNat ≤ 57 then
      parseDigitsAux cs (acc * 10 + (c.toNat - 48))
    else none

/-- Python `int(str)`: an optional sign followed by at least one decimal
digit; anything else raises `ValueError` (`none`).  (Surrounding whitespace,
which `int()` would strip, is not modelled.) -/
def pyInt? (s : String) : Option Int :=
  match s.data with
  | [] => none
  | '-' :: rest =>
    if rest = [] then none
    else (parseDigitsAux rest 0).map fun n => -(n : Int)
  | '+' :: rest =>
    if rest = [] then none
    else (parseDigitsAux rest 0).map fun n => (n : Int)
  | cs => (parseDigitsAux cs 0).map fun n => (n : Int)

/-- `int(request.values.get('RecordingDuration', 0))`: the default is the
integer `0`; a present field is a string that `int()` parses, raising
`ValueError` (here `none`) when it is not an integer literal. -/
def pyIntOfValue : Option String → Option Int
  | none => some 0
  | some s => pyInt? s

/-- HTTP status of `webhook_recording` (src/webhook.py lines 194-231).  The
body computes `recording_url + '.mp3'` (a `TypeError` when `RecordingUrl` is
absent, since `None + str` fails) and `int(recording_duration)` (a
`ValueError` on a non-numeric string); any exception reaches the handler's
`except` clause, which returns a JSON error with status 500 (lines 226-231);
otherwise the handler returns a JSON acknowledgement with status 200. -/
def webhook_recording_status (req : RecordingRequest) : Nat :=
  match req.recordingUrl, pyIntOfValue req.recordingDuration with
  | some _, some _ => 200
  | _, _ => 500

/-- A row of the `calls` table (spec §3 "Call"), with the fields the webhook
writes on insert plus the `tags` column used by auto-tagging. -/
structure CallRow where
  call_sid : String
  from_number : String
  to_number : String
  destination_number : Option String
  status : Option String
  campaign : Option String
  tracking_source_id : Option Nat
  tags : Option String
  created_at : Nat
deriving Repr, DecidableEq

/-- Modelled from the spec: the `calls` table schema lives in Supabase, not
under `src/`; spec §3 declares `call_sid (unique, provider-assigned)`, so the
database rejects an insert whose `call_sid` already exists (duplicate-key
error) and leaves the table unchanged.  `none` is that rejection. -/
def callsInsertUnique (calls : List CallRow) (row : CallRow) :
    Option (List CallRow) :=
  if calls.any (fun r => r.call_sid == row.call_sid) then none
  else some (calls ++ [row])

/-- `DatabaseService.insert_call` (src/services/database.py lines 324-355).
The required fields (`call_sid`, `from_number`, `to_number`) are present by
typing.  The insert is attempted; any exception — in particular the
duplicate-key rejection — is caught by the `except` clause, which logs and
returns `None`, leaving the table as it was.  On success the call sid is
returned. -/
def insert_call (calls : List CallRow) (row : CallRow) :
    Option String × List CallRow :=
  match callsInsertUnique calls row with
  | some t => (some row.call_sid, t)
  | none => (none, calls)

/-- A row of the `contacts` table (spec §3 "Contact").  `organization_id` is
optional because legacy rows may lack it (`crm.py` line 43 checks for and
backfills a missing organization). -/
structure Contact where
  id : Nat
  phone_number : String
  name : String
  organization_id : Option Nat
  is_manual : Bool
  created_at : Nat
  last_activity_at : Nat
deriving Repr, DecidableEq

/-- A row of the `deals` table (spec §3 "Deal").  `stage_id` is optional:
`_get_default_stage_id` can return `None` and the insert/update uses it as
is. -/
structure Deal where
  id : Nat
  contact_id : Nat
  stage_id : Option Nat
  title : String
  status : String
  source : String
  organization_id : Nat
  last_activity_at : Nat
deriving Repr, DecidableEq

/-- A row of the `pipeline_stages` table, restricted to the columns the CRM
service reads. -/
structure PipelineStage where
  id : Nat
  is_default : Bool
deriving Repr, DecidableEq

/-- A row of the `timeline_events` table (spec §3 "TimelineEvent"); the
free-form `metadata` payload is not modelled. -/
structure TimelineEvent where
  contact_id : Nat
  deal_id : Nat
  event_type : String
  description : String
  created_at : Nat
deriving Repr, DecidableEq

/-- The tables touched by the CRM reconciler, plus the id the store will
assign to the next inserted row. -/
structure CRMState where
  contacts : List Contact
  deals : List Deal
  pipeline_stages : List PipelineStage
  timeline_events : List TimelineEvent
  next_id : Nat
deriving Repr, DecidableEq

/-- Python `phone[-4:]`: the last four characters (the whole string when it
is shorter). -/
def lastFour (s : String) : String :=
  String.mk (s.data.drop (s.data.length - 4))

/-- `CRMService._get_or_create_contact` (src/services/crm.py lines 35-68).
The lookup filters `contacts` by `phone_number` only (line 37 has no
`organization_id` filter) and takes the first row.  If the found contact has
no organization, its `organization_id` is backfilled in the store (line 44)
while the stale fetched row is returned (line 45).  If no row matches, a new
contact is inserted with a placeholder name built from the last four digits
and `is_manual = False`.  The duplicate-key retry of lines 60-65 handles a
concurrent insert and has no counterpart in this sequential model. -/
def get_or_create_contact (st : CRMState) (phone : String) (org_id : Nat)
    (now : Nat) : Option Contact × CRMState :=
  match (st.contacts.filter fun c => c.phone_number == phone).head? with
  | some c =>
    if c.organization_id = none then
      (some c, { st with contacts := st.contacts.map fun x =>
        if x.id == c.id then { x with organization_id := some org_id } else x })
    else (some c, st)
  | none =>
    let c : Contact :=
      { id := st.next_id, phone_number := phone,
        name := "Lead " ++ lastFour phone, organization_id := some org_id,
        is_manual := false, created_at := now, last_activity_at := now }
    (some c, { st with contacts := st.contacts ++ [c],
                       next_id := st.next_id + 1 })

/-- `CRMService._get_default_stage_id` (src/services/crm.py lines 110-114):
first pipeline stage with `is_default = True`; failing that, the first stage
at all; failing that, `None`. -/
def get_default_stage_id (stages : List PipelineStage) : Option Nat :=
  match (stages.filter fun s => s.is_default).head? with
  | some s => some s.id
  | none => stages.head?.map fun s => s.id

/-- `CRMService._add_timeline_event` (src/services/crm.py lines 116-125):
append a row to `timeline_events`. -/
def add_timeline_event (st : CRMState) (contact_id deal_id : Nat)
    (event_type desc : String) (now : Nat) : CRMState :=
  { st with timeline_events := st.timeline_events ++
      [{ contact_id := contact_id, deal_id := deal_id,
         event_type := event_type, description := desc, created_at := now }] }

/-- `CRMService._upsert_deal_from_call` (src/services/crm.py lines 70-108).
Fetches the first deal with this `contact_id` and status `OPEN` (no
organization filter).  If one exists, its `last_activity_at` and `stage_id`
are rewritten (update keyed on the deal id), a `SYSTEM` event is appended
when the stage actually changed, then a `CALL_INBOUND` event is appended.
Otherwise a new `OPEN` deal is inserted in the default stage with source
`voice` and a title built from the caller's number, followed by a
`CALL_INBOUND` event. -/
def upsert_deal_from_call (st : CRMState) (contact_id : Nat)
    (from_number : String) (org_id : Nat) (now : Nat) : CRMState :=
  let default_stage_id := get_default_stage_id st.pipeline_stages
  match (st.deals.filter fun d =>
      d.contact_id == contact_id && d.status == "OPEN").head? with
  | some d =>
    let st1 := { st with deals := st.deals.map fun x =>
      if x.id == d.id then
        { x with last_activity_at := now, stage_id := default_stage_id }
      else x }
    let st2 :=
      if d.stage_id ≠ default_stage_id then
        add_timeline_event st1 contact_id d.id "SYSTEM"
          "Movido para Inbox (Nova Interação)" now
      else st1
    add_timeline_event st2 contact_id d.id "CALL_INBOUND"
      "Nova chamada recebida" now
  | none =>
    let nd : Deal :=
      { id := st.next_id, contact_id := contact_id,
        stage_id := default_stage_id,
        title := "Ligação de " ++ from_number, status := "OPEN",
        source := "voice", organization_id := org_id,
        last_activity_at := now }
    let st1 := { st with deals := st.deals ++ [nd],
                         next_id := st.next_id + 1 }
    add_timeline_event st1 contact_id nd.id "CALL_INBOUND"
      "Lead criado via telefone" now

/-- `CRMService.handle_incoming_call_event` (src/services/crm.py lines
13-33): skip everything when no organization id is present; otherwise
resolve the contact and upsert the deal.  The surrounding `try/except` only
logs, so every failure path leaves the state it reached. -/
def handle_incoming_call_event (st : CRMState) (from_number : String)
    (org_id : Option Nat) (now : Nat) : CRMState :=
  match org_id with
  | none => st
  | some org =>
    match get_or_create_contact st from_number org now with
    | (some c, st1) => upsert_deal_from_call st1 c.id from_number org now
    | (none, st1) => st1

/-- A row of the `ai_analysis` table (spec §3 "AIAnalysis"). -/
structure AIAnalysisRow where
  call_sid : String
  transcription : String
  summary : String
  sentiment : String
  tags : List String
  created_at : Nat
deriving Repr, DecidableEq

/-- The analysis payload produced by `_process_openai` or
`_process_free_tier` (src/services/ai_service.py lines 67-116). -/
structure AnalysisResult where
  text : String
  summary : String
  sentiment : String
  tags : List String
deriving Repr, DecidableEq

/-- The tables touched by the post-call analysis persistence. -/
structure AIState where
  ai_analysis : List AIAnalysisRow
  calls : List CallRow
deriving Repr, DecidableEq

/-- The Python exceptions `AIService._save_result` can raise. -/
inductive PyError where
  | duplicateKey
  | attributeError
deriving Repr, DecidableEq

/-- Modelled from the spec: the `ai_analysis` table schema lives in Supabase,
not under `src/`; spec §3 declares `call_sid (unique)`, so the database
rejects an insert whose `call_sid` already exists and leaves the table
unchanged. -/
def aiInsertUnique (table : List AIAnalysisRow) (row : AIAnalysisRow) :
    Option (List AIAnalysisRow) :=
  if table.any (fun r => r.call_sid == row.call_sid) then none
  else some (table ++ [row])

/-- The methods defined on `DatabaseService` (src/services/database.py);
Python attribute lookup on the service raises `AttributeError` for any name
outside this list. -/
def databaseServiceMethods : List String :=
  ["get_destination_number", "add_phone_routing", "update_phone_routing",
   "get_or_create_tracking_source", "update_call_recording",
   "update_call_status", "insert_call", "health_check"]

/-- `AIService._save_result` (src/services/ai_service.py lines 165-178).
Inserts the `ai_analysis` row (no existence check in the source, nothing
catches a failure, so a duplicate-key rejection propagates with the table
unchanged).  When the result has at least one tag it then evaluates
`db.update_call_tag(call_sid, data['tags'][0])`: `db` is the
`DatabaseService` singleton, and the attribute lookup consults
`databaseServiceMethods` — when the method is absent the call raises
`AttributeError` after the analysis row was already committed, and the
`calls` table is never touched. -/
def save_result (st : AIState) (call_sid : String) (data : AnalysisResult)
    (now : Nat) : Option PyError × AIState :=
  match aiInsertUnique st.ai_analysis
      { call_sid := call_sid, transcription := data.text,
        summary := data.summary, sentiment := data.sentiment,
        tags := data.tags, created_at := now } with
  | none => (some PyError.duplicateKey, st)
  | some t =>
    let st1 := { st with ai_analysis := t }
    if data.tags.isEmpty then (none, st1)
    else if databaseServiceMethods.contains "update_call_tag" then
      (none, { st1 with calls := st1.calls.map fun c =>
        if c.call_sid == call_sid then { c with tags := data.tags.head? }
        else c })
    else (some PyError.attributeError, st1)

/-- `AIService.process_call` (src/services/ai_service.py lines 26-54).
Returns `False` without touching the store when the recording URL is falsy,
the download fails, or both the OpenAI and the free-tier paths fail
(`result = None`); the transcription/classification itself is external and
enters as the `result` argument.  On a produced result, `_save_result` runs:
its errors propagate to the caller together with the state it reached. -/
def process_call (st : AIState) (call_sid : String)
    (recording_url : Option String) (downloadOk : Bool)
    (result : Option AnalysisResult) (now : Nat) :
    Option PyError × Bool × AIState :=
  if (recording_url.getD "") == "" then (none, false, st)
  else if downloadOk = false then (none, false, st)
  else
    match result with
    | none => (none, false, st)
    | some data =>
      match save_result st call_sid data now with
      | (some e, st1) => (some e, false, st1)
      | (none, st1) => (none, true, st1)

/-- The routes of the C2 scenario: an active campaign-specific route and an
active generic route for the same tracking number. -/
def c2Routes : List Route :=
  [{ id := 1, tracking_number := "+5511999990000",
     destination_number := "+5511777770000", campaign := some "google_ads",
     is_active := true },
   { id := 2, tracking_number := "+5511999990000",
     destination_number := "+5511888880000", campaign := none,
     is_active := true }]

/-- Concrete contact for the C1 witness state. -/
def c1Contact : Contact :=
  { id := 1, phone_number := "+5521988887777", name := "Lead 7777",
    organization_id := some 10, is_manual := false, created_at := 0,
    last_activity_at := 0 }

/-- Concrete OPEN deal, parked in stage 99, for the C1 witness state. -/
def c1Deal : Deal :=
  { id := 2, contact_id := 1, stage_id := some 99,
    title := "Ligação de +5521988887777", status := "OPEN",
    source := "voice", organization_id := 10, last_activity_at := 5 }

/-- Concrete default pipeline stage for the C1 witness state. -/
def c1Stage : PipelineStage := { id := 7, is_default := true }

/-- Concrete CRM store for the C1 witness. -/
def c1State : CRMState :=
  { contacts := [c1Contact], deals := [c1Deal],
    pipeline_stages := [c1Stage], timeline_events := [], next_id := 3 }

/-- A contact belonging to organization 2, for the cross-tenant
counterexamples. -/
def c3Contact : Contact :=
  { id := 1, phone_number := "+5511999990001", name := "Org2 Lead",
    organization_id := some 2, is_manual := false, created_at := 0,
    last_activity_at := 0 }

/-- A store whose only contact belongs to organization 2. -/
def c3State : CRMState :=
  { contacts := [c3Contact], deals := [], pipeline_stages := [],
    timeline_events := [], next_id := 5 }

/-- An empty store with a default stage, for the new-lead witnesses. -/
def c6State : CRMState :=
  { contacts := [], deals := [], pipeline_stages := [c1Stage],
    timeline_events := [], next_id := 1 }

/-- A call row awaiting analysis, for the analysis fixtures. -/
def c8Call : CallRow :=
  { call_sid := "CA1234567890abcdef1234567890abcd",
    from_number := "+5521988887777", to_number := "+5511999990000",
    destination_number := some "+5511888880000",
    status := some "completed", campaign := none,
    tracking_source_id := none, tags := none, created_at := 0 }

/-- Analysis store with one recorded call and no analysis rows yet. -/
def c8State : AIState := { ai_analysis := [], calls := [c8Call] }

/-- A successful analysis result carrying one tag from the closed set. -/
def c8Result : AnalysisResult :=
  { text := "transcricao", summary := "resumo", sentiment := "Neutral",
    tags := ["Agendado"] }

/-- A routing table holding only an inactive route for the dialed number:
no active route exists. -/
def c9Routes : List Route :=
  [{ id := 3, tracking_number := "+5511999990000",
     destination_number := "+5511888880000", campaign := none,
     is_active := false }]

/-! ## Order lemmas for the routing result ordering -/

theorem charListLt_irrefl : ∀ l : List Char, charListLt l l = false := by
  intro l
  induction l with
  | nil => rfl
  | cons c cs ih => simp [charListLt, ih]

theorem charListLt_asymm : ∀ a b : List Char,
    charListLt a b = true → charListLt b a = false := by
  intro a
  induction a with
  | nil =>
    intro b h
    cases b with
    | nil => simp [charListLt] at h
    | cons d ds => rfl
  | cons c cs ih =>
    intro b h
    cases b with
    | nil => simp [charListLt] at h
    | cons d ds =>
      simp only [charListLt] at h ⊢
      rcases Nat.lt_trichotomy c.toNat d.toNat with h1 | h1 | h1
      · rw [if_neg (by omega), if_pos h1]
      · rw [if_neg (by omega), if_neg (by omega)] at h ⊢
        exact ih ds h
      · rw [if_neg (by omega), if_pos h1] at h
        exact absurd h (by simp)

theorem charListLt_neg_trans : ∀ a b c : List Char,
    charListLt a b = false → charListLt b c = false →
    charListLt a c = false := by
  intro a
  induction a with
  | nil =>
    intro b c hab hbc
    cases b with
    | nil => exact hbc
    | cons y ys => simp [charListLt] at hab
  | cons x xs ih =>
    intro b c hab hbc
    cases c with
    | nil => rfl
    | cons z zs =>
      cases b with
      | nil => simp [charListLt] at hbc
      | cons y ys =>
        simp only [charListLt] at hab hbc ⊢
        rcases Nat.lt_trichotomy x.toNat y.toNat with h1 | h1 | h1
        · rw [if_pos h1] at hab
          exact absurd hab (by simp)
        · rw [if_neg (by omega), if_neg (by omega)] at hab
          rcases Nat.lt_trichotomy y.toNat z.toNat with h2 | h2 | h2
          · rw [if_pos h2] at hbc
            exact absurd hbc (by simp)
          · rw [if_neg (by omega), if_neg (by omega)] at hbc
            rw [if_neg (by omega), if_neg (by omega)]
            exact ih ys zs hab hbc
          · rw [if_neg (by omega), if_pos (by omega)]
        · rcases Nat.lt_trichotomy y.toNat z.toNat with h2 | h2 | h2
          · rw [if_pos h2] at hbc
            exact absurd hbc (by simp)
          · rw [if_neg (by omega), if_pos (by omega)]
          · rw [if_neg (by omega), if_pos (by omega)]

theorem campaignLt_irrefl (k : Option String) : campaignLt k k = false := by
  cases k with
  | none => rfl
  | some a => exact charListLt_irrefl a.data

theorem campaignLt_asymm {a b : Option String}
    (h : campaignLt a b = true) : campaignLt b a = false := by
  cases a with
  | none => cases b <;> exact Bool.noConfusion h
  | some x =>
    cases b with
    | none => rfl
    | some y => exact charListLt_asymm _ _ h

theorem campaignLt_neg_trans {a b c : Option String}
    (hab : campaignLt a b = false) (hbc : campaignLt b c = false) :
    campaignLt a c = false := by
  cases a with
  | none => cases c <;> rfl
  | some x =>
    cases b with
    | none => exact Bool.noConfusion hab
    | some y =>
      cases c with
      | none => exact Bool.noConfusion hbc
      | some z => exact charListLt_neg_trans _ _ _ hab hbc

theorem orderHead_eq_nil {l : List Route} (h : orderHead l = none) :
    l = [] := by
  cases l with
  | nil => rfl
  | cons r rs =>
    simp only [orderHead] at h
    cases ho : orderHead rs with
    | none => rw [ho] at h; exact Option.noConfusion h
    | some b =>
      rw [ho] at h
      by_cases hlt : campaignLt b.campaign r.campaign = true
      · simp [hlt] at h
      · simp [hlt] at h

theorem orderHead_cons (r : Route) (rs : List Route) :
    ∃ b, orderHead (r :: rs) = some b := by
  simp only [orderHead]
  cases orderHead rs with
  | none => exact ⟨r, rfl⟩
  | some b =>
    by_cases h : campaignLt b.campaign r.campaign = true
    · exact ⟨b, by simp [h]⟩
    · exact ⟨r, by simp [h]⟩

theorem orderHead_mem : ∀ {l : List Route} {r : Route},
    orderHead l = some r → r ∈ l := by
  intro l
  induction l with
  | nil => intro r h; exact absurd h (by simp [orderHead])
  | cons x xs ih =>
    intro r h
    simp only [orderHead] at h
    cases ho : orderHead xs with
    | none =>
      rw [ho] at h
      injection h with h
      subst h
      exact List.mem_cons_self _ _
    | some b =>
      rw [ho] at h
      by_cases hlt : campaignLt b.campaign x.campaign = true
      · simp only [hlt, if_true, Option.some.injEq] at h
        subst h
        exact List.mem_cons_of_mem _ (ih ho)
      · simp [hlt] at h
        subst h
        exact List.mem_cons_self _ _

theorem orderHead_min : ∀ {l : List Route} {r : Route},
    orderHead l = some r →
    ∀ x ∈ l, campaignLt x.campaign r.campaign = false := by
  intro l
  induction l with
  | nil => intro r h; exact absurd h (by simp [orderHead])
  | cons y ys ih =>
    intro r h x hx
    simp only [orderHead] at h
    cases ho : orderHead ys with
    | none =>
      rw [ho] at h
      injection h with h
      subst h
      have hys := orderHead_eq_nil ho
      subst hys
      rcases List.mem_cons.mp hx with rfl | hx'
      · exact campaignLt_irrefl _
      · exact absurd hx' (List.not_mem_nil _)
    | some b =>
      rw [ho] at h
      by_cases hlt : campaignLt b.campaign y.campaign = true
      · simp only [hlt, if_true, Option.some.injEq] at h
        subst h
        rcases List.mem_cons.mp hx with rfl | hx'
        · exact campaignLt_asymm hlt
        · exact ih ho x hx'
      · simp [hlt] at h
        subst h
        have hbf : campaignLt b.campaign y.campaign = false :=
          Bool.eq_false_iff.mpr hlt
        rcases List.mem_cons.mp hx with rfl | hx'
        · exact campaignLt_irrefl _
        · exact campaignLt_neg_trans (ih ho x hx') hbf

theorem orderHead_of_mem {l : List Route} {x : Route} (hx : x ∈ l) :
    ∃ r, orderHead l = some r := by
  cases l with
  | nil => exact absurd hx (List.not_mem_nil x)
  | cons a as => exact orderHead_cons a as

theorem mem_filter_active {routes : List Route} {tn : String} {r : Route} :
    r ∈ routes.filter (fun x => x.tracking_number == tn && x.is_active) ↔
    (r ∈ routes ∧ r.tracking_number = tn ∧ r.is_active = true) := by
  simp [List.mem_filter, Bool.and_eq_true, beq_iff_eq, and_assoc]

theorem mem_filter_campaign {l : List Route} {c : String} {r : Route} :
    r ∈ l.filter (fun x => x.campaign == some c || x.campaign == none) ↔
    (r ∈ l ∧ (r.campaign = some c ∨ r.campaign = none)) := by
  simp [List.mem_filter, Bool.or_eq_true, beq_iff_eq]

/-! ## C2 — routing resolution -/

/-- **C2, counterexample.**  The claim says that with the campaign parameter
absent, resolution returns the generic (campaign = null) route's destination.
On `c2Routes` — a specific and a generic active route for the same tracking
number — resolving with no campaign returns the campaign-specific
destination `+5511777770000`, not the generic `+5511888880000`: the source
applies no campaign filter when the parameter is absent, and the ascending
order on `campaign` (nulls last) puts the specific route first. -/
theorem routing_campaign_absent_counterexample :
    get_destination_number c2Routes "+5511999990000" none =
      some "+5511777770000" ∧
    (c2Routes.get ⟨1, by decide⟩).campaign = none ∧
    (c2Routes.get ⟨1, by decide⟩).destination_number = "+5511888880000" ∧
    some "+5511777770000" ≠ some "+5511888880000" := by
  refine ⟨rfl, rfl, rfl, by decide⟩

/-- **C2** (amended).  For every set of routes and tracking number:
(1) if a non-empty campaign parameter is supplied and an active route with
exactly that campaign exists, resolution returns the destination of such a
campaign-specific route (never the generic one);
(2) if a non-empty campaign parameter is supplied and no active route matches
it exactly, resolution returns the destination of a generic (campaign = null)
active route when one exists;
(3) if the campaign parameter is absent, no campaign filter is applied, and
whenever any campaign-specific active route exists for the tracking number
the returned destination comes from a route with a non-null campaign — the
generic route is *not* preferred. -/
theorem routing_resolution_amended (routes : List Route) (tn : String) :
    (∀ c : String, c ≠ "" →
      (∃ r0 ∈ routes, r0.tracking_number = tn ∧ r0.is_active = true ∧
        r0.campaign = some c) →
      ∃ r ∈ routes, r.tracking_number = tn ∧ r.is_active = true ∧
        r.campaign = some c ∧
        get_destination_number routes tn (some c) =
          some r.destination_number) ∧
    (∀ c : String, c ≠ "" →
      (∃ g ∈ routes, g.tracking_number = tn ∧ g.is_active = true ∧
        g.campaign = none) →
      (∀ r ∈ routes, r.tracking_number = tn → r.is_active = true →
        r.campaign ≠ some c) →
      ∃ r ∈ routes, r.tracking_number = tn ∧ r.is_active = true ∧
        r.campaign = none ∧
        get_destination_number routes tn (some c) =
          some r.destination_number) ∧
    ((∃ r0 ∈ routes, r0.tracking_number = tn ∧ r0.is_active = true ∧
        r0.campaign ≠ none) →
      ∃ r ∈ routes, r.tracking_number = tn ∧ r.is_active = true ∧
        r.campaign ≠ none ∧
        get_destination_number routes tn none =
          some r.destination_number) := by
  refine ⟨?_, ?_, ?_⟩
  · intro c hc h0
    obtain ⟨r0, h0mem, h0tn, h0act, h0camp⟩ := h0
    have hbase : r0 ∈ routes.filter
        (fun x => x.tracking_number == tn && x.is_active) :=
      mem_filter_active.mpr ⟨h0mem, h0tn, h0act⟩
    have hfil : r0 ∈ (routes.filter
          (fun x => x.tracking_number == tn && x.is_active)).filter
        (fun x => x.campaign == some c || x.campaign == none) :=
      mem_filter_campaign.mpr ⟨hbase, Or.inl h0camp⟩
    obtain ⟨r, hr⟩ := orderHead_of_mem hfil
    have hrmem := orderHead_mem hr
    have hrmin := orderHead_min hr r0 hfil
    obtain ⟨hrbase, hrcase⟩ := mem_filter_campaign.mp hrmem
    obtain ⟨hrroutes, hrtn, hract⟩ := mem_filter_active.mp hrbase
    have hcamp : r.campaign = some c := by
      rcases hrcase with h | h
      · exact h
      · rw [h0camp, h] at hrmin
        exact Bool.noConfusion hrmin
    refine ⟨r, hrroutes, hrtn, hract, hcamp, ?_⟩
    simp only [get_destination_number]
    rw [if_neg hc, hr]
    rfl
  · intro c hc hg hno
    obtain ⟨g, hgmem, hgtn, hgact, hgcamp⟩ := hg
    have hbase : g ∈ routes.filter
        (fun x => x.tracking_number == tn && x.is_active) :=
      mem_filter_active.mpr ⟨hgmem, hgtn, hgact⟩
    have hfil : g ∈ (routes.filter
          (fun x => x.tracking_number == tn && x.is_active)).filter
        (fun x => x.campaign == some c || x.campaign == none) :=
      mem_filter_campaign.mpr ⟨hbase, Or.inr hgcamp⟩
    obtain ⟨r, hr⟩ := orderHead_of_mem hfil
    have hrmem := orderHead_mem hr
    obtain ⟨hrbase, hrcase⟩ := mem_filter_campaign.mp hrmem
    obtain ⟨hrroutes, hrtn, hract⟩ := mem_filter_active.mp hrbase
    have hcamp : r.campaign = none := by
      rcases hrcase with h | h
      · exact absurd h (hno r hrroutes hrtn hract)
      · exact h
    refine ⟨r, hrroutes, hrtn, hract, hcamp, ?_⟩
    simp only [get_destination_number]
    rw [if_neg hc, hr]
    rfl
  · intro h0
    obtain ⟨r0, h0mem, h0tn, h0act, h0camp⟩ := h0
    have hbase : r0 ∈ routes.filter
        (fun x => x.tracking_number == tn && x.is_active) :=
      mem_filter_active.mpr ⟨h0mem, h0tn, h0act⟩
    obtain ⟨r, hr⟩ := orderHead_of_mem hbase
    have hrmem := orderHead_mem hr
    have hrmin := orderHead_min hr r0 hbase
    obtain ⟨hrroutes, hrtn, hract⟩ := mem_filter_active.mp hrmem
    have hcamp : r.campaign ≠ none := by
      intro hnone
      obtain ⟨c0, hc0⟩ := Option.ne_none_iff_exists'.mp h0camp
      rw [hc0, hnone] at hrmin
      exact Bool.noConfusion hrmin
    refine ⟨r, hrroutes, hrtn, hract, hcamp, ?_⟩
    simp only [get_destination_number]
    rw [hr]
    rfl

/-- Witness for `routing_resolution_amended`: on the concrete `c2Routes`,
part (1) applies at campaign `google_ads` and yields the specific route. -/
theorem routing_resolution_amended_witness :
    ∃ r ∈ c2Routes, r.tracking_number = "+5511999990000" ∧
      r.is_active = true ∧ r.campaign = some "google_ads" ∧
      get_destination_number c2Routes "+5511999990000" (some "google_ads") =
        some r.destination_number :=
  (routing_resolution_amended c2Routes "+5511999990000").1 "google_ads"
    (by decide)
    ⟨c2Routes.get ⟨0, by decide⟩, by decide, rfl, rfl, rfl⟩

/-! ## C9 — unknown tracking number -/

/-- **C9** (code bug).  The resolution half of the claim holds: with no
active route the result set is empty and `get_destination_number` returns
`None` — every backend error is likewise caught to `None`, so nothing is
raised to the caller.  The webhook half is the claim's (and the code's own)
intent, broken by a slip: the handler builds the graceful decline TwiML,
but line 150 returns `_create_no_destination_response(), 200` although the
helper already returns a `(Response, 200)` tuple, so the view hands Flask
`((Response, 200), 200)`; `make_response` rejects the tuple body with
`TypeError` and the telephony provider receives HTTP 500 with Flask's HTML
error page instead of the decline document. -/
theorem routing_not_found_code_bug :
    get_destination_number c9Routes "+5511999990000" none = none ∧
    webhook_call_view true c9Routes "+5511999990000" none false =
      ViewReturn.nested VoiceDoc.decline 200 200 ∧
    webhook_call_response true c9Routes "+5511999990000" none false =
      (500, HttpBody.errorPage) ∧
    ((500, HttpBody.errorPage) : Nat × HttpBody) ≠
      (200, HttpBody.voice VoiceDoc.decline) := by
  refine ⟨rfl, rfl, rfl, by decide⟩

/-! ## C4 — webhook HTTP statuses -/

/-- **C4, counterexample.**  The claim says telephony-facing webhook
endpoints return 200 for every business outcome including "no route found"
and an internal error, with non-200 reserved for signature failure (403).
In the program, "no route found" is answered with HTTP 500 (the nested
`((Response, 200), 200)` return of line 150 makes Flask raise `TypeError`),
a signature failure is also answered with 500 — not even the intended 403 —
for the same reason (line 107), and a recording callback whose
`RecordingDuration` is the non-numeric string `abc` makes
`int(recording_duration)` raise, answered with 500 (lines 226-231). -/
theorem webhook_status_counterexample :
    webhook_call_response true c9Routes "+5511999990000" none false =
      (500, HttpBody.errorPage) ∧
    webhook_call_response false c2Routes "+5511999990000" none false =
      (500, HttpBody.errorPage) ∧
    webhook_recording_status
      { callSid := some "CA1234567890abcdef1234567890abcd",
        recordingUrl := some "https://api.twilio.com/rec/RE1",
        recordingSid := some "RE1",
        recordingDuration := some "abc" } = 500 ∧
    (500 : Nat) ≠ 200 ∧ (500 : Nat) ≠ 403 := by
  refine ⟨rfl, rfl, rfl, by decide, by decide⟩

/-- **C4** (amended).  The call endpoint returns 200 with a valid voice
document only on successful forwarding (an authenticated, exception-free
request whose destination resolves); every other path — signature failure,
no route, internal error — is answered with HTTP 500, because those
returns wrap an already-`(Response, 200)` helper tuple in a second tuple
that Flask rejects with `TypeError` (so even the intended 403 never
reaches the provider).  The recording endpoint returns 200 whenever its
payload is processable and only ever answers 200 or 500. -/
theorem webhook_status_amended (authOk internalExc : Bool)
    (routes : List Route) (tn : String) (campaign : Option String)
    (req : RecordingRequest) :
    (∀ d, authOk = true → internalExc = false →
      get_destination_number routes tn campaign = some d →
      webhook_call_response authOk routes tn campaign internalExc =
        (200, HttpBody.voice (VoiceDoc.forward d))) ∧
    (authOk = false ∨ internalExc = true ∨
        get_destination_number routes tn campaign = none →
      webhook_call_response authOk routes tn campaign internalExc =
        (500, HttpBody.errorPage)) ∧
    (req.recordingUrl ≠ none → pyIntOfValue req.recordingDuration ≠ none →
      webhook_recording_status req = 200) ∧
    (webhook_recording_status req = 200 ∨
      webhook_recording_status req = 500) := by
  refine ⟨?_, ?_, ?_, ?_⟩
  · intro d ha hi hd
    subst ha
    subst hi
    simp [webhook_call_response, webhook_call_view, flask_answer, hd]
  · intro h
    rcases h with ha | hi | hd
    · subst ha
      simp [webhook_call_response, webhook_call_view, flask_answer]
    · subst hi
      cases authOk <;>
        simp [webhook_call_response, webhook_call_view, flask_answer]
    · cases authOk <;> cases internalExc <;>
        simp [webhook_call_response, webhook_call_view, flask_answer, hd]
  · intro hu hp
    simp only [webhook_recording_status]
    cases hu2 : req.recordingUrl with
    | none => exact absurd hu2 hu
    | some u =>
      cases hp2 : pyIntOfValue req.recordingDuration with
      | none => exact absurd hp2 hp
      | some n => rfl
  · simp only [webhook_recording_status]
    cases req.recordingUrl <;> cases pyIntOfValue req.recordingDuration <;>
      simp

/-- Witness for `webhook_status_amended`: a successful forward on
`c2Routes`, a no-route 500 on `c9Routes`, and a processable recording
callback. -/
theorem webhook_status_amended_witness :
    webhook_call_response true c2Routes "+5511999990000" none false =
      (200, HttpBody.voice (VoiceDoc.forward "+5511777770000")) ∧
    webhook_call_response true c9Routes "+5511999990000" none false =
      (500, HttpBody.errorPage) ∧
    webhook_recording_status
      { callSid := some "CA1234567890abcdef1234567890abcd",
        recordingUrl := some "https://api.twilio.com/rec/RE1",
        recordingSid := some "RE1",
        recordingDuration := some "12" } = 200 := by
  refine ⟨?_, ?_, ?_⟩
  · exact (webhook_status_amended true false c2Routes "+5511999990000" none
      ⟨none, none, none, none⟩).1 "+5511777770000" rfl rfl (by rfl)
  · exact (webhook_status_amended true false c9Routes "+5511999990000" none
      ⟨none, none, none, none⟩).2.1 (Or.inr (Or.inr (by rfl)))
  · exact (webhook_status_amended true false c2Routes "+5511999990000" none
      { callSid := some "CA1234567890abcdef1234567890abcd",
        recordingUrl := some "https://api.twilio.com/rec/RE1",
        recordingSid := some "RE1",
        recordingDuration := some "12" }).2.2.1 (by decide) (by decide)

/-! ## C5 — ledger insert idempotence -/

/-- **C5** (confirmed).  Inserting the same call a second time returns
`None` without raising (`insert_call` catches the duplicate-key rejection)
and leaves the `calls` table exactly as it was after the first insert; the
table holds exactly one row for the call sid when it held none before, and
exactly as many as before when it already held some. -/
theorem insert_call_idempotent (calls : List CallRow) (row : CallRow) :
    insert_call (insert_call calls row).2 row =
      (none, (insert_call calls row).2) ∧
    (insert_call calls row).2.countP
        (fun r => r.call_sid == row.call_sid) =
      max 1 (calls.countP (fun r => r.call_sid == row.call_sid)) := by
  by_cases h : calls.any (fun r => r.call_sid == row.call_sid) = true
  · have hfirst : insert_call calls row = (none, calls) := by
      simp [insert_call, callsInsertUnique, h]
    rw [hfirst]
    constructor
    · simp [insert_call, callsInsertUnique, h]
    · have hpos : 0 < calls.countP (fun r => r.call_sid == row.call_sid) := by
        rw [List.countP_pos_iff]
        obtain ⟨a, ha, hpa⟩ := List.any_eq_true.mp h
        exact ⟨a, ha, hpa⟩
      show calls.countP (fun r => r.call_sid == row.call_sid) = _
      omega
  · have hzero : calls.countP (fun r => r.call_sid == row.call_sid) = 0 := by
      rw [List.countP_eq_zero]
      intro a ha hpa
      exact h (List.any_eq_true.mpr ⟨a, ha, hpa⟩)
    have hfirst : insert_call calls row = (some row.call_sid, calls ++ [row]) := by
      simp only [insert_call, callsInsertUnique]
      rw [if_neg h]
    rw [hfirst]
    constructor
    · have hany : (calls ++ [row]).any
          (fun r => r.call_sid == row.call_sid) = true := by
        rw [List.any_eq_true]
        exact ⟨row, by simp, by simp⟩
      simp [insert_call, callsInsertUnique, hany]
    · rw [List.countP_append, hzero]
      simp

/-! ## CRM helper lemmas -/

theorem filter_map_comm (l : List Deal) (P : Deal → Bool) (g : Deal → Deal)
    (hPg : ∀ x, P (g x) = P x) :
    (l.map g).filter P = (l.filter P).map g := by
  induction l with
  | nil => rfl
  | cons x xs ih =>
    simp only [List.map_cons, List.filter_cons, hPg]
    by_cases hx : P x = true
    · simp [hx, ih]
    · simp [Bool.eq_false_iff.mpr hx, ih]

theorem get_or_create_contact_found (st : CRMState) (p : String)
    (org now : Nat) (c : Contact)
    (hc : (st.contacts.filter fun x => x.phone_number == p).head? = some c) :
    (get_or_create_contact st p org now).1 = some c ∧
    (get_or_create_contact st p org now).2.deals = st.deals ∧
    (get_or_create_contact st p org now).2.pipeline_stages =
      st.pipeline_stages ∧
    (get_or_create_contact st p org now).2.timeline_events =
      st.timeline_events := by
  simp only [get_or_create_contact, hc]
  by_cases ho : c.organization_id = none <;> simp [ho]

theorem handle_some (st : CRMState) (p : String) (org now : Nat)
    (c : Contact) (hc : (get_or_create_contact st p org now).1 = some c) :
    handle_incoming_call_event st p (some org) now =
      upsert_deal_from_call (get_or_create_contact st p org now).2 c.id p
        org now := by
  simp only [handle_incoming_call_event]
  rcases hp : get_or_create_contact st p org now with ⟨o, st1⟩
  rw [hp] at hc
  cases o with
  | none => exact Option.noConfusion hc
  | some a =>
    injection hc with hc
    subst hc
    rfl

theorem default_stage_of_filter (stages : List PipelineStage)
    (s : PipelineStage) (hs : stages.filter (fun x => x.is_default) = [s]) :
    get_default_stage_id stages = some s.id := by
  simp only [get_default_stage_id, hs]
  rfl

theorem upsert_existing (st : CRMState) (cid : Nat) (p : String)
    (org now : Nat) (d0 : Deal) (s : PipelineStage)
    (hd : st.deals.filter
      (fun x => x.contact_id == cid && x.status == "OPEN") = [d0])
    (hs : st.pipeline_stages.filter (fun x => x.is_default) = [s]) :
    (upsert_deal_from_call st cid p org now).deals =
      st.deals.map (fun x => if x.id == d0.id then
        { x with last_activity_at := now, stage_id := some s.id } else x) ∧
    (upsert_deal_from_call st cid p org now).timeline_events =
      st.timeline_events ++
      (if d0.stage_id ≠ some s.id then
        [{ contact_id := cid, deal_id := d0.id, event_type := "SYSTEM",
           description := "Movido para Inbox (Nova Interação)",
           created_at := now },
         { contact_id := cid, deal_id := d0.id, event_type := "CALL_INBOUND",
           description := "Nova chamada recebida", created_at := now }]
      else
        [{ contact_id := cid, deal_id := d0.id, event_type := "CALL_INBOUND",
           description := "Nova chamada recebida", created_at := now }]) := by
  have hstage := default_stage_of_filter st.pipeline_stages s hs
  simp only [upsert_deal_from_call, hd, hstage, List.head?_cons]
  by_cases hchg : d0.stage_id = some s.id
  · simp [hchg, add_timeline_event]
  · simp [hchg, add_timeline_event]

/-! ## C1 — resurrection of an existing OPEN deal -/

/-- **C1** (confirmed).  For a contact resolved for the call (the first
contact row matching the caller's number) that has exactly one OPEN deal —
the spec's at-most-one-OPEN-deal invariant plus the claim's premise that an
OPEN deal exists — handling the inbound-call event leaves exactly one OPEN
deal for that contact: the same deal, with `stage_id` moved to the
pipeline's default (inbox) stage and `last_activity_at` refreshed to `now`,
strictly newer than before since the clock moved on (`hnow`).  A `SYSTEM`
timeline event is appended if and only if the stage actually changed, and a
`CALL_INBOUND` event is always appended after it. -/
theorem crm_open_deal_resurrection (st : CRMState) (p : String)
    (org now : Nat) (c : Contact) (d0 : Deal) (s : PipelineStage)
    (hc : (st.contacts.filter fun x => x.phone_number == p).head? = some c)
    (hd : st.deals.filter
      (fun x => x.contact_id == c.id && x.status == "OPEN") = [d0])
    (hs : st.pipeline_stages.filter (fun x => x.is_default) = [s])
    (hnow : d0.last_activity_at < now) :
    (handle_incoming_call_event st p (some org) now).deals.filter
        (fun x => x.contact_id == c.id && x.status == "OPEN") =
      [{ d0 with stage_id := some s.id, last_activity_at := now }] ∧
    d0.last_activity_at < now ∧
    (handle_incoming_call_event st p (some org) now).timeline_events =
      st.timeline_events ++
      (if d0.stage_id ≠ some s.id then
        [{ contact_id := c.id, deal_id := d0.id, event_type := "SYSTEM",
           description := "Movido para Inbox (Nova Interação)",
           created_at := now },
         { contact_id := c.id, deal_id := d0.id,
           event_type := "CALL_INBOUND",
           description := "Nova chamada recebida", created_at := now }]
      else
        [{ contact_id := c.id, deal_id := d0.id,
           event_type := "CALL_INBOUND",
           description := "Nova chamada recebida", created_at := now }]) := by
  obtain ⟨h1, h2, h3, h4⟩ := get_or_create_contact_found st p org now c hc
  rw [handle_some st p org now c h1]
  have hd2 : (get_or_create_contact st p org now).2.deals.filter
      (fun x => x.contact_id == c.id && x.status == "OPEN") = [d0] := by
    rw [h2]; exact hd
  have hs2 : (get_or_create_contact st p org now).2.pipeline_stages.filter
      (fun x => x.is_default) = [s] := by
    rw [h3]; exact hs
  obtain ⟨hu1, hu2⟩ := upsert_existing (get_or_create_contact st p org now).2
    c.id p org now d0 s hd2 hs2
  refine ⟨?_, hnow, ?_⟩
  · rw [hu1, h2]
    rw [filter_map_comm st.deals _ _ (fun x => by
      by_cases hx : (x.id == d0.id) = true <;> simp [hx])]
    rw [hd]
    simp [List.map_cons]
  · rw [hu2, h4]

/-- Witness for `crm_open_deal_resurrection`: on `c1State` — one contact,
one OPEN deal parked in stage 99, default stage 7 — the call at time 6
moves the deal back to stage 7. -/
theorem crm_open_deal_resurrection_witness :
    (handle_incoming_call_event c1State "+5521988887777"
        (some 10) 6).deals.filter
        (fun x => x.contact_id == 1 && x.status == "OPEN") =
      [{ c1Deal with stage_id := some 7, last_activity_at := 6 }] := by
  have h := crm_open_deal_resurrection c1State "+5521988887777" 10 6
    c1Contact c1Deal c1Stage (by decide) (by decide) (by decide) (by decide)
  exact h.1

theorem upsert_new (st : CRMState) (cid : Nat) (p : String)
    (org now : Nat)
    (hd : st.deals.filter
      (fun x => x.contact_id == cid && x.status == "OPEN") = []) :
    upsert_deal_from_call st cid p org now =
      add_timeline_event
        { st with
          deals := st.deals ++
            [{ id := st.next_id, contact_id := cid,
               stage_id := get_default_stage_id st.pipeline_stages,
               title := "Ligação de " ++ p, status := "OPEN",
               source := "voice", organization_id := org,
               last_activity_at := now }],
          next_id := st.next_id + 1 }
        cid st.next_id "CALL_INBOUND" "Lead criado via telefone" now := by
  have hc : (st.deals.filter
      (fun d => d.contact_id == cid && d.status == "OPEN")).head? = none := by
    rw [hd]; rfl
  simp only [upsert_deal_from_call, hc]

theorem handle_fresh (st : CRMState) (p : String) (org now : Nat)
    (hp : st.contacts.filter (fun x => x.phone_number == p) = []) :
    handle_incoming_call_event st p (some org) now =
      upsert_deal_from_call
        { st with
          contacts := st.contacts ++
            [{ id := st.next_id, phone_number := p,
               name := "Lead " ++ lastFour p, organization_id := some org,
               is_manual := false, created_at := now,
               last_activity_at := now }],
          next_id := st.next_id + 1 }
        st.next_id p org now := by
  have hc : (st.contacts.filter
      (fun x => x.phone_number == p)).head? = none := by
    rw [hp]; rfl
  simp only [handle_incoming_call_event, get_or_create_contact, hc]

/-! ## C3 — tenant scoping of contact resolution -/

/-- **C3, counterexample.**  The claim says contact resolution finds the
Contact by the pair (phone_number, organization_id) and never reads another
organization's contact.  On `c3State`, whose only contact with this phone
number belongs to organization 2, resolving the same number for a call of
organization 1 returns that organization-2 contact unchanged, creates no
organization-1 contact, and leaves the store as it was: the query at
src/services/crm.py line 37 filters by phone number only. -/
theorem contact_scope_counterexample :
    (get_or_create_contact c3State "+5511999990001" 1 5).1 =
      some c3Contact ∧
    c3Contact.organization_id = some 2 ∧
    get_or_create_contact c3State "+5511999990001" 1 5 =
      (some c3Contact, c3State) ∧
    (get_or_create_contact c3State "+5511999990001" 1 5).2.contacts.filter
      (fun x => x.organization_id == some 1) = [] := by
  refine ⟨rfl, rfl, rfl, rfl⟩

/-- **C3** (amended).  Contact resolution during inbound-call handling
filters by `phone_number` alone: whatever organization the first matching
contact belongs to, that contact is returned.  When it already has an
organization the store is left untouched (in particular, a contact of a
*different* organization is reused as is); only a contact with a missing
organization gets the resolved organization backfilled. -/
theorem contact_resolution_amended (st : CRMState) (p : String)
    (org now : Nat) (c : Contact)
    (hc : (st.contacts.filter fun x => x.phone_number == p).head? =
      some c) :
    (get_or_create_contact st p org now).1 = some c ∧
    (c.organization_id ≠ none →
      get_or_create_contact st p org now = (some c, st)) ∧
    (c.organization_id = none →
      (get_or_create_contact st p org now).2.contacts =
        st.contacts.map (fun x => if x.id == c.id then
          { x with organization_id := some org } else x)) := by
  refine ⟨(get_or_create_contact_found st p org now c hc).1, ?_, ?_⟩
  · intro h
    simp only [get_or_create_contact, hc]
    rw [if_neg h]
  · intro h
    simp only [get_or_create_contact, hc]
    rw [if_pos h]

/-- Witness for `contact_resolution_amended`: the cross-tenant store
`c3State`. -/
theorem contact_resolution_amended_witness :
    get_or_create_contact c3State "+5511999990001" 1 5 =
      (some c3Contact, c3State) :=
  (contact_resolution_amended c3State "+5511999990001" 1 5 c3Contact
    (by decide)).2.1 (by decide)

/-! ## C6 — new contact, new deal -/

/-- **C6, counterexample.**  The claim's premise is a caller number with no
contact *in the resolved organization*; on `c3State` organization 1 has no
contact at all, yet handling a call for organization 1 creates no contact —
the phone-only lookup reuses organization 2's contact — so neither before
nor after is there any organization-1 contact, against the claimed
"creates exactly one Contact". -/
theorem crm_new_contact_counterexample :
    c3State.contacts.filter (fun x => x.organization_id == some 1) = [] ∧
    (handle_incoming_call_event c3State "+5511999990001"
      (some 1) 5).contacts = c3State.contacts ∧
    (handle_incoming_call_event c3State "+5511999990001"
      (some 1) 5).contacts.filter
      (fun x => x.organization_id == some 1) = [] := by
  refine ⟨rfl, rfl, rfl⟩

/-- **C6** (amended).  For a caller number with no existing contact in *any*
organization (and a store whose next row id is fresh among deals), handling
the inbound-call event appends exactly one contact — `is_manual = false`,
placeholder name from the last 4 digits — exactly one OPEN deal in the
default stage with source `voice` and a title derived from the caller's
number, and exactly one `CALL_INBOUND` timeline event; afterwards that deal
is the contact's only OPEN deal. -/
theorem crm_new_lead_amended (st : CRMState) (p : String) (org now : Nat)
    (s : PipelineStage)
    (hp : st.contacts.filter (fun x => x.phone_number == p) = [])
    (hd : st.deals.filter
      (fun x => x.contact_id == st.next_id && x.status == "OPEN") = [])
    (hs : st.pipeline_stages.filter (fun x => x.is_default) = [s]) :
    (handle_incoming_call_event st p (some org) now).contacts =
      st.contacts ++
        [{ id := st.next_id, phone_number := p,
           name := "Lead " ++ lastFour p, organization_id := some org,
           is_manual := false, created_at := now,
           last_activity_at := now }] ∧
    (handle_incoming_call_event st p (some org) now).deals =
      st.deals ++
        [{ id := st.next_id + 1, contact_id := st.next_id,
           stage_id := some s.id, title := "Ligação de " ++ p,
           status := "OPEN", source := "voice", organization_id := org,
           last_activity_at := now }] ∧
    (handle_incoming_call_event st p (some org) now).timeline_events =
      st.timeline_events ++
        [{ contact_id := st.next_id, deal_id := st.next_id + 1,
           event_type := "CALL_INBOUND",
           description := "Lead criado via telefone",
           created_at := now }] ∧
    (handle_incoming_call_event st p (some org) now).deals.filter
      (fun x => x.contact_id == st.next_id && x.status == "OPEN") =
      [{ id := st.next_id + 1, contact_id := st.next_id,
         stage_id := some s.id, title := "Ligação de " ++ p,
         status := "OPEN", source := "voice", organization_id := org,
         last_activity_at := now }] := by
  have hstage := default_stage_of_filter st.pipeline_stages s hs
  rw [handle_fresh st p org now hp]
  rw [upsert_new _ st.next_id p org now (by exact hd)]
  refine ⟨rfl, ?_, rfl, ?_⟩
  · simp [add_timeline_event, hstage]
  · simp [add_timeline_event, hstage, List.filter_append, hd]

/-- Witness for `crm_new_lead_amended`: the empty store `c6State` and a
fresh caller number. -/
theorem crm_new_lead_amended_witness :
    (handle_incoming_call_event c6State "+5521988887777"
        (some 10) 6).contacts =
      [{ id := 1, phone_number := "+5521988887777",
         name := "Lead " ++ lastFour "+5521988887777",
         organization_id := some 10, is_manual := false, created_at := 6,
         last_activity_at := 6 }] :=
  (crm_new_lead_amended c6State "+5521988887777" 10 6 c1Stage
    (by decide) (by decide) (by decide)).1

/-! ## C10 — default-stage lookup degradation -/

/-- **C10** (confirmed).  The default-stage lookup is total and degrades in
two steps: the first stage flagged `is_default` when one exists; otherwise
the first stage at all; otherwise `None` — and inbound-call handling still
proceeds in the last case, creating the deal with `stage_id = None` instead
of raising. -/
theorem default_stage_lookup_total (stages : List PipelineStage)
    (st : CRMState) (p : String) (org now : Nat) :
    (∀ s rest, stages.filter (fun x => x.is_default) = s :: rest →
      get_default_stage_id stages = some s.id) ∧
    (stages.filter (fun x => x.is_default) = [] → ∀ s rest,
      stages = s :: rest → get_default_stage_id stages = some s.id) ∧
    (stages = [] → get_default_stage_id stages = none) ∧
    (st.pipeline_stages = [] →
      st.contacts.filter (fun x => x.phone_number == p) = [] →
      st.deals.filter
        (fun x => x.contact_id == st.next_id && x.status == "OPEN") = [] →
      (handle_incoming_call_event st p (some org) now).deals =
        st.deals ++
          [{ id := st.next_id + 1, contact_id := st.next_id,
             stage_id := none, title := "Ligação de " ++ p,
             status := "OPEN", source := "voice", organization_id := org,
             last_activity_at := now }]) := by
  refine ⟨?_, ?_, ?_, ?_⟩
  · intro s rest hfil
    simp only [get_default_stage_id, hfil]
    rfl
  · intro hfil s rest hstages
    subst hstages
    simp only [get_default_stage_id, hfil]
    rfl
  · intro hstages
    subst hstages
    rfl
  · intro hstages hp hd
    rw [handle_fresh st p org now hp]
    rw [upsert_new _ st.next_id p org now (by exact hd)]
    have hnone : get_default_stage_id st.pipeline_stages = none := by
      rw [hstages]
      rfl
    simp [add_timeline_event, hnone]

/-- Witness for `default_stage_lookup_total`: a store with no pipeline
stages at all still records the new deal, with `stage_id = none`. -/
theorem default_stage_lookup_total_witness :
    (handle_incoming_call_event
        { contacts := [], deals := [], pipeline_stages := [],
          timeline_events := [], next_id := 1 }
        "+5521988887777" (some 10) 6).deals =
      [{ id := 2, contact_id := 1, stage_id := none,
         title := "Ligação de +5521988887777", status := "OPEN",
         source := "voice", organization_id := 10,
         last_activity_at := 6 }] := by
  have h := (default_stage_lookup_total []
    { contacts := [], deals := [], pipeline_stages := [],
      timeline_events := [], next_id := 1 }
    "+5521988887777" 10 6).2.2.2 rfl (by decide) (by decide)
  simpa using h

/-! ## C7 — at most one analysis row per call -/

theorem countP_append_singleton_le (l : List AIAnalysisRow)
    (row : AIAnalysisRow) (q : String)
    (hl : l.countP (fun r => r.call_sid == q) ≤ 1)
    (hany : l.any (fun r => r.call_sid == row.call_sid) = false) :
    (l ++ [row]).countP (fun r => r.call_sid == q) ≤ 1 := by
  rw [List.countP_append]
  by_cases hq : row.call_sid = q
  · subst hq
    have h0 : l.countP (fun r => r.call_sid == row.call_sid) = 0 := by
      rw [List.countP_eq_zero]
      intro a ha hpa
      rw [List.any_eq_false] at hany
      exact hany a ha hpa
    rw [h0]
    simp [List.countP_cons]
  · have h1 : ([row]).countP (fun r => r.call_sid == q) = 0 := by
      simp [List.countP_cons, hq]
    rw [h1]
    omega

/-- **C7** (confirmed; the `ai_analysis` unique key is modelled from the
spec, see `aiInsertUnique`).  Any single invocation of the analysis
pipeline preserves "at most one `AIAnalysis` row per call_sid" — hence any
sequence of invocations does — and when a row for the analysed call already
exists the table is left entirely unchanged (the unchecked insert is
rejected by the unique key and nothing in `_save_result` retries it). -/
theorem ai_analysis_at_most_once (st : AIState) (call_sid : String)
    (recording_url : Option String) (downloadOk : Bool)
    (result : Option AnalysisResult) (now : Nat) (q : String)
    (h : st.ai_analysis.countP (fun r => r.call_sid == q) ≤ 1) :
    (process_call st call_sid recording_url downloadOk result
        now).2.2.ai_analysis.countP (fun r => r.call_sid == q) ≤ 1 ∧
    (st.ai_analysis.any (fun r => r.call_sid == call_sid) = true →
      (process_call st call_sid recording_url downloadOk result
        now).2.2.ai_analysis = st.ai_analysis) := by
  simp only [process_call]
  by_cases h1 : (recording_url.getD "" == "") = true
  · rw [if_pos h1]
    exact ⟨h, fun _ => rfl⟩
  · rw [if_neg h1]
    by_cases h2 : downloadOk = false
    · rw [if_pos h2]
      exact ⟨h, fun _ => rfl⟩
    · rw [if_neg h2]
      cases result with
      | none => exact ⟨h, fun _ => rfl⟩
      | some data =>
        simp only [save_result, aiInsertUnique]
        by_cases hany :
            st.ai_analysis.any (fun r => r.call_sid == call_sid) = true
        · rw [if_pos hany]
          exact ⟨h, fun _ => rfl⟩
        · rw [if_neg hany]
          have hany2 :
              st.ai_analysis.any (fun r => r.call_sid == call_sid) =
                false := Bool.eq_false_iff.mpr hany
          have hle := countP_append_singleton_le st.ai_analysis
            { call_sid := call_sid, transcription := data.text,
              summary := data.summary, sentiment := data.sentiment,
              tags := data.tags, created_at := now } q h hany2
          by_cases htags : data.tags.isEmpty = true
          · simp only [htags, if_true]
            exact ⟨hle, fun hc => absurd hc hany⟩
          · simp only [htags, if_false]
            have hcont :
                databaseServiceMethods.contains "update_call_tag" =
                  false := rfl
            simp only [hcont]
            exact ⟨hle, fun hc => absurd hc hany⟩

/-- Witness for `ai_analysis_at_most_once`: a second analysis of the
already-analysed call of `c8State` after a first successful run. -/
theorem ai_analysis_at_most_once_witness :
    (process_call c8State "CA1234567890abcdef1234567890abcd"
        (some "https://api.twilio.com/rec/RE1.mp3") true (some c8Result)
        7).2.2.ai_analysis.countP
      (fun r => r.call_sid == "CA1234567890abcdef1234567890abcd") ≤ 1 :=
  (ai_analysis_at_most_once c8State "CA1234567890abcdef1234567890abcd"
    (some "https://api.twilio.com/rec/RE1.mp3") true (some c8Result) 7
    "CA1234567890abcdef1234567890abcd" (by decide)).1

/-! ## C8 — auto-tagging never reaches the Call row -/

/-- **C8** (code bug).  The claim — and the source's own
"Auto-Tagging no Kanban" comment — say that after the `AIAnalysis` row is
persisted the result's first tag is written to the Call row.  But
`_save_result` invokes `db.update_call_tag`, and `db` is the
`DatabaseService` singleton, which defines no method of that name (the
function of that name lives in `app.py` as a Streamlit module function): the
call raises `AttributeError` after the analysis row has been inserted, and
`Call.tags` is never written.  Evaluated here on a successful analysis of a
recorded call whose result carries the tag `Agendado`. -/
theorem ai_auto_tagging_code_bug :
    databaseServiceMethods.contains "update_call_tag" = false ∧
    process_call c8State "CA1234567890abcdef1234567890abcd"
        (some "https://api.twilio.com/rec/RE1.mp3") true (some c8Result)
        7 =
      (some PyError.attributeError, false,
        { ai_analysis :=
            [{ call_sid := "CA1234567890abcdef1234567890abcd",
               transcription := "transcricao", summary := "resumo",
               sentiment := "Neutral", tags := ["Agendado"],
               created_at := 7 }],
          calls := [c8Call] }) ∧
    (process_call c8State "CA1234567890abcdef1234567890abcd"
        (some "https://api.twilio.com/rec/RE1.mp3") true (some c8Result)
        7).2.2.calls = c8State.calls ∧
    c8Call.tags = none := by
  refine ⟨rfl, rfl, rfl, rfl⟩

end CallTracking
